import Mathlib

/-!
Shallow embedding of `buildscripts/sync_repo_with_copybara.py` and
`buildscripts/resmokelib/testing/testcases/sdam_json_test.py`.

External effects (subprocess execution, the GitHub token exchange, file
writes, printed log lines, Slack messages) are modelled explicitly: the
environment supplies the behaviour of the outside world as functions, and
each modelled Python function returns the values it produces together with
the list of log lines it prints.  Python exceptions are modelled with
`Except`; a Python `Optional[str]` is `Option String`; rendering a Python
value in an f-string goes through `pyStr`, which renders `None` as the
literal string "None", exactly as CPython does.
-/

namespace CopybaraSync

/-- Python `in` on strings: substring containment (CPython: the empty
string is contained in every string, and `List.isInfixOf` agrees). -/
def pyIn (pat s : String) : Bool :=
  decide (pat.data <:+: s.data)

/-- Rendering of an `Optional[str]` inside a Python f-string or via
`str(...)`: `None` renders as the four characters "None". -/
def pyStr : Option String → String
  | none => "None"
  | some s => s

/-- Python dict lookup `d[k]` modelled on an association list; `none`
models the `KeyError` case. -/
def dictLookup (d : List (String × String)) (k : String) : Option String :=
  (d.find? (fun p => p.1 == k)).map Prod.snd

/-- Outcome of actually running one shell command in a child process:
exit status zero with captured stdout, or a nonzero status with the
captured stderr (`none` models a stderr of Python `None`). -/
inductive ProcOutcome where
  | success (stdout : String)
  | failure (returncode : Int) (stderr : Option String)
deriving Repr, DecidableEq

/-- Model of `subprocess.CalledProcessError`: carries the command, the exit
status and the captured standard error. -/
structure CalledProcessError where
  cmd : String
  returncode : Int
  stderr : Option String
deriving Repr, DecidableEq

/-- Rendering `str(err)` of a `CalledProcessError` (signal names for negative
return codes are abstracted to the "unknown signal" wording CPython
falls back to). -/
def strCalledProcessError (e : CalledProcessError) : String :=
  if e.returncode < 0 then
    "Command \x27" ++ e.cmd ++ "\x27 died with unknown signal "
      ++ toString (-e.returncode) ++ "."
  else
    "Command \x27" ++ e.cmd ++ "\x27 returned non-zero exit status "
      ++ toString e.returncode ++ "."

/-- The diagnostic line `run_command` prints before re-raising:
  print(f"Error while executing: \x27\x7bcommand\x7d\x27.\n\x7berr\x7d\nStandard Error: \x7berr.stderr\x7d") -/
def errorLogLine (command : String) (err : CalledProcessError) : String :=
  "Error while executing: \x27" ++ command ++ "\x27.\n"
    ++ strCalledProcessError err
    ++ "\nStandard Error: " ++ pyStr err.stderr

/-- Model of `run_command(command)`: executes the shell command (the behaviour of
the operating system is the function `runProc`), returns captured stdout
on exit status zero; on a nonzero exit status prints a diagnostic line
naming the failing command and re-raises the `CalledProcessError`.
Returns the result together with the printed log lines. -/
def run_command (runProc : String → ProcOutcome) (command : String) :
    Except CalledProcessError String × List String :=
  match runProc command with
  | ProcOutcome.success out => (Except.ok out, [])
  | ProcOutcome.failure rc serr =>
      let err : CalledProcessError := ⟨command, rc, serr⟩
      (Except.error err, [errorLogLine command err])

/-- The fixed content written to `~/mongodb-bot.gitconfig` (the exact
triple-quoted string literal of the source). -/
def gitconfig_content : String :=
  "\n    [user]\n        name = MongoDB Bot\n        email = mongo-bot@mongodb.com\n    "

/-- Model of `create_mongodb_bot_gitconfig()`: overwrites the gitconfig file with
the fixed content, whatever its prior content (`prev`) was — there is no
read-before-write check, the argument is ignored.  Returns the new file
content. -/
def create_mongodb_bot_gitconfig (_prev : Option String) : String :=
  gitconfig_content

/-- The object returned by a successful GitHub token exchange
(`GithubIntegration.get_access_token`): carries the token string. -/
structure InstallationAuthorization where
  token : String
deriving Repr, DecidableEq

/-- Model of `get_installation_access_token(app_id, private_key, installation_id)`:
performs the exchange (modelled by the external function `exchange`); if
the response is truthy returns its `.token`, otherwise prints a
diagnostic and returns `None`.  Returns the `Optional[str]` result
together with the printed log lines. -/
def get_installation_access_token
    (exchange : String → String → String → Option InstallationAuthorization)
    (app_id private_key installation_id : String) :
    Option String × List String :=
  match exchange app_id private_key installation_id with
  | some auth => (some auth.token, [])
  | none => (none, ["Error obtaining installation token"])

/-- Model of `send_failure_message_to_slack(expansions)`: composes the failure
message (rendering an absent `version_id` as "None", as `dict.get` plus
an f-string does) to be sent to the #sdp-triager channel. -/
def send_failure_message_to_slack (expansions : List (String × String)) : String :=
  let current_version_id := dictLookup expansions "version_id"
  "Evergreen task \x27* Copybara Sync Between Repos\x27 failed\n"
    ++ "For more details: <https://spruce.mongodb.com/version/"
    ++ pyStr current_version_id ++ "|here>."

/-- The environment of one run of `main`: the state of the outside world
the script interacts with.  `runProc` is the operating system executing a
shell command; `exchange` is the GitHub service answering the token
exchange; `expansions` is the dictionary `read_config_file` returns;
`home_gitconfig` is the prior content of `~/mongodb-bot.gitconfig`
(`none` when absent). -/
structure Env where
  copybara_exists : Bool
  runProc : String → ProcOutcome
  expansions : List (String × String)
  exchange : String → String → String → Option InstallationAuthorization
  current_dir : String
  home_gitconfig : Option String

/-- An exception escaping `main` uncaught: a `KeyError` from an
expansions lookup, or a `CalledProcessError` from the clone or the image
build (those `run_command` calls are outside the `try` block). -/
inductive PyError where
  | keyError (key : String)
  | calledProcessError (e : CalledProcessError)
deriving Repr, DecidableEq

/-- Observable result of one run of `main`: the shell commands handed to
`subprocess.run` in order, the printed log lines, the Slack messages sent
as (target, message) pairs, the final content of the gitconfig file, and
whether `main` returned normally or an exception escaped (a nonzero
process exit). -/
structure MainResult where
  executed : List String
  logs : List String
  slack : List (String × String)
  gitconfig : Option String
  outcome : Except PyError Unit
deriving Repr

/-- The clone command of `main`. -/
def cloneCmd : String := "git clone https://github.com/10gen/copybara.git"

/-- The image build command of `main`. -/
def buildCmd : String := "cd copybara && docker build --rm -t copybara ."

/-- The authenticated destination URL, interpolating the
`Optional[str]` token as a Python f-string does. -/
def git_destination_url_with_token (access_token : Option String) : String :=
  "https://x-access-token:" ++ pyStr access_token ++ "@github.com/mongodb/mongo.git"

/-- The `docker_cmd` list literal of `main`. -/
def docker_cmd (current_dir url : String) : List String :=
  ["docker run",
   "-v ~/.ssh:/root/.ssh",
   "-v ~/mongodb-bot.gitconfig:/root/.gitconfig",
   "-v \"" ++ current_dir ++ "/copybara.sky\":/usr/src/app/copy.bara.sky",
   "-e COPYBARA_CONFIG=\x27copy.bara.sky\x27",
   "-e COPYBARA_SUBCOMMAND=\x27migrate\x27",
   "-e COPYBARA_OPTIONS=\x27-v --last-rev=0fd0cc3 --git-destination-url=" ++ url ++ "\x27",
   "copybara copybara"]

/-- Joined `" ".join(docker_cmd)`: the migration command line actually executed,
as a function of the working directory and the token. -/
def migration_command (env : Env) (access_token : Option String) : String :=
  String.intercalate " " (docker_cmd env.current_dir (git_destination_url_with_token access_token))

/-- The `acceptable_error_messages` list literal of `main`. -/
def acceptable_error_messages : List String :=
  ["No new changes to import for resolved ref",
   "Iterative workflow produced no changes in the destination for resolved ref"]

/-- Lines 129–156 of `main`: build the authenticated URL and the docker
command, run it inside `try`; on success fall off the end of `main`; on
`CalledProcessError` take `str(err.stderr)`, swallow it when it contains
an acceptable message, otherwise send the Slack failure message — and in
every case return normally.  `executed`, `logs` and `gitconfig`
accumulate the effects of the earlier lines. -/
def main_migrate (env : Env) (access_token : Option String)
    (executed logs : List String) (gitconfig : Option String) : MainResult :=
  let cmd := migration_command env access_token
  match run_command env.runProc cmd with
  | (Except.ok _, l) =>
      ⟨executed ++ [cmd], logs ++ l, [], gitconfig, Except.ok ()⟩
  | (Except.error err, l) =>
      let error_message := pyStr err.stderr
      if acceptable_error_messages.any (fun m => pyIn m error_message) then
        ⟨executed ++ [cmd], logs ++ l, [], gitconfig, Except.ok ()⟩
      else
        ⟨executed ++ [cmd], logs ++ l,
         [("#sdp-triager", send_failure_message_to_slack env.expansions)],
         gitconfig, Except.ok ()⟩

/-- Lines 115–127 of `main`: the three expansions lookups (a missing key
raises `KeyError`, evaluated left to right), the token exchange, and the
gitconfig write, then the migration step. -/
def main_config (env : Env) (executed logs : List String) : MainResult :=
  match dictLookup env.expansions "app_id_copybara_syncer" with
  | none => ⟨executed, logs, [], env.home_gitconfig,
             Except.error (PyError.keyError "app_id_copybara_syncer")⟩
  | some app_id =>
  match dictLookup env.expansions "private_key_copybara_syncer" with
  | none => ⟨executed, logs, [], env.home_gitconfig,
             Except.error (PyError.keyError "private_key_copybara_syncer")⟩
  | some private_key =>
  match dictLookup env.expansions "installation_id_copybara_syncer" with
  | none => ⟨executed, logs, [], env.home_gitconfig,
             Except.error (PyError.keyError "installation_id_copybara_syncer")⟩
  | some installation_id =>
      let tok := get_installation_access_token env.exchange app_id private_key installation_id
      let gitconfig := some (create_mongodb_bot_gitconfig env.home_gitconfig)
      main_migrate env tok.1 executed
        (logs ++ tok.2 ++ ["mongodb-bot.gitconfig file created."]) gitconfig

/-- Line 112 of `main`: the unconditional image build; its
`CalledProcessError` is not caught and escapes `main`. -/
def main_build (env : Env) (executed logs : List String) : MainResult :=
  match run_command env.runProc buildCmd with
  | (Except.ok _, l) => main_config env (executed ++ [buildCmd]) (logs ++ l)
  | (Except.error err, l) =>
      ⟨executed ++ [buildCmd], logs ++ l, [], env.home_gitconfig,
       Except.error (PyError.calledProcessError err)⟩

/-- Model of `main()` (argument parsing and `read_config_file` are external; the
expansions they produce live in `env`): clone the copybara repo unless
the directory exists, build the image, then configure and migrate. -/
def main (env : Env) : MainResult :=
  if env.copybara_exists then
    main_build env [] ["Copybara directory already exists."]
  else
    match run_command env.runProc cloneCmd with
    | (Except.ok _, l) => main_build env [cloneCmd] l
    | (Except.error err, l) =>
        ⟨[cloneCmd], l, [], env.home_gitconfig,
         Except.error (PyError.calledProcessError err)⟩

/-- A fully populated expansions dictionary for concrete runs. -/
def testExpansions : List (String × String) :=
  [("app_id_copybara_syncer", "12345"),
   ("private_key_copybara_syncer", "test-private-key"),
   ("installation_id_copybara_syncer", "67890"),
   ("version_id", "version123")]

/-- An operating system for concrete runs: the clone and the image
build succeed, and every other command — the migration command — yields
`migRes`. -/
def testRunProc (migRes : ProcOutcome) : String → ProcOutcome :=
  fun c => if c == cloneCmd || c == buildCmd then ProcOutcome.success "" else migRes

/-- A concrete run environment: no pre-existing copybara checkout, a
fixed working directory, no pre-existing gitconfig, and the given
expansions, token-exchange response and migration outcome. -/
def testEnv (expansions : List (String × String))
    (auth : Option InstallationAuthorization) (migRes : ProcOutcome) : Env :=
  { copybara_exists := false
    runProc := testRunProc migRes
    expansions := expansions
    exchange := fun _ _ _ => auth
    current_dir := "/home/runner/work"
    home_gitconfig := none }

/-- Scenario A: the migration exits 1 with the benign iterative-workflow
message on stderr. -/
def envA : Env :=
  testEnv testExpansions (some ⟨"ghs-tokenA"⟩)
    (ProcOutcome.failure 1
      (some "Iterative workflow produced no changes in the destination for resolved ref abc123"))

/-- Scenario B: the migration exits 1 with an authentication failure on
stderr. -/
def envB : Env :=
  testEnv testExpansions (some ⟨"ghs-tokenB"⟩)
    (ProcOutcome.failure 1 (some "fatal: authentication failed"))

/-- Scenario: the token exchange yields no token; the migration command
itself would succeed. -/
def envC3run : Env :=
  testEnv testExpansions none (ProcOutcome.success "")

/-- Scenario C: the expansions lack `app_id_copybara_syncer`. -/
def envC4run : Env :=
  testEnv [("version_id", "version123")] none (ProcOutcome.success "")

/-- Scenario: a genuine migration failure in a run whose token exchange
returned the token "tok-SECRET-123". -/
def envC5run : Env :=
  testEnv testExpansions (some ⟨"tok-SECRET-123"⟩)
    (ProcOutcome.failure 1 (some "migration crashed"))

/-- Scenario: the migration fails with stderr `None` (nothing
captured). -/
def envC10run : Env :=
  testEnv testExpansions (some ⟨"ghs-token10"⟩) (ProcOutcome.failure 2 none)

/-- A token exchange that always fails. -/
def exchangeNone : String → String → String → Option InstallationAuthorization :=
  fun _ _ _ => none

/-- An operating system in which every command succeeds with stdout
"out". -/
def okProc : String → ProcOutcome := fun _ => ProcOutcome.success "out"

/-- An operating system in which every command exits 1 with stderr
"boom". -/
def failProc : String → ProcOutcome := fun _ => ProcOutcome.failure 1 (some "boom")

end CopybaraSync

namespace SdamJsonTest

/-- The component loop of CPython `posixpath.normpath`: drop empty and
"." components; ".." pops the previous component unless at a relative
root or stacked on another "..". -/
def normpathLoop (initial_slashes : Nat) : List String → List String → List String
  | acc, [] => acc
  | acc, comp :: rest =>
    if comp == "" || comp == "." then
      normpathLoop initial_slashes acc rest
    else if comp != ".." || (initial_slashes == 0 && acc.isEmpty)
        || (!acc.isEmpty && acc.getLast? == some "..") then
      normpathLoop initial_slashes (acc ++ [comp]) rest
    else if !acc.isEmpty then
      normpathLoop initial_slashes acc.dropLast rest
    else
      normpathLoop initial_slashes acc rest

/-- Model of `os.path.normpath` with POSIX separator semantics, following the
CPython `posixpath.normpath` algorithm. -/
def os_path_normpath (path : String) : String :=
  if path == "" then "."
  else
    let initial_slashes : Nat :=
      if path.startsWith "//" && !path.startsWith "///" then 2
      else if path.startsWith "/" then 1
      else 0
    let comps := path.splitOn "/"
    let new_comps := normpathLoop initial_slashes [] comps
    let p := String.intercalate "/" new_comps
    let p := String.join (List.replicate initial_slashes "/") ++ p
    if p == "" then "." else p

/-- Model of `os.path.join` of a directory and a relative name, POSIX semantics:
the right part replaces everything when absolute, otherwise it is
appended with a separator inserted unless one is already present. -/
def os_path_join (a b : String) : String :=
  if b.startsWith "/" then b
  else if a == "" || a.endsWith "/" then a ++ b
  else a ++ "/" ++ b

/-- The environment the adapter inspects: the configured install
directory, `os.name`, and which paths are existing regular files. -/
structure SDAMEnv where
  install_dir : String
  os_name : String
  isfile : String → Bool

/-- The error kind of `errors.StopExecution`, distinguishable from test
failures by construction. -/
inductive ResmokeError where
  | stopExecution (msg : String)
deriving Repr, DecidableEq

/-- The constant `SDAMJsonTestCase.TEST_DIR`:
`os.path.normpath("src/mongo/client/sdam/json_tests/sdam_tests")`. -/
def TEST_DIR : String :=
  os_path_normpath "src/mongo/client/sdam/json_tests/sdam_tests"

/-- The binary path `_find_executable` probes:
`os.path.join(config.INSTALL_DIR, "sdam_json_test")`, with ".exe"
appended when `os.name == "nt"`. -/
def sdam_binary_path (env : SDAMEnv) : String :=
  let binary := os_path_join env.install_dir "sdam_json_test"
  if env.os_name == "nt" then binary ++ ".exe" else binary

/-- Model of `SDAMJsonTestCase._find_executable`: raises `StopExecution` when the
binary is not an existing file, otherwise returns its path. -/
def find_executable (env : SDAMEnv) : Except ResmokeError String :=
  let binary := sdam_binary_path env
  if env.isfile binary then Except.ok binary
  else Except.error (ResmokeError.stopExecution
    ("Failed to locate sdam_json_test binary at " ++ binary))

/-- The state `SDAMJsonTestCase.__init__` establishes: the located
executable, the normalized fixture path, and a copy of the program
options (defaulted to an empty dict when absent). -/
structure SDAMJsonTestCase where
  program_executable : String
  json_test_file : String
  program_options : List (String × String)
deriving Repr, DecidableEq

/-- Model of `SDAMJsonTestCase.__init__(logger, json_test_file, program_options)`:
locates the executable (propagating `StopExecution`), normalizes the
fixture path, and defaults the options. -/
def SDAMJsonTestCase.init (env : SDAMEnv) (json_test_file : String)
    (program_options : Option (List (String × String))) :
    Except ResmokeError SDAMJsonTestCase :=
  match find_executable env with
  | Except.error e => Except.error e
  | Except.ok exe =>
      Except.ok ⟨exe, os_path_normpath json_test_file, program_options.getD []⟩

/-- The command line `SDAMJsonTestCase._make_process` assembles. -/
def make_process (t : SDAMJsonTestCase) : List String :=
  [t.program_executable, "--source-dir", TEST_DIR, "-f", t.json_test_file]

/-- An install directory in which the SDAM test binary exists. -/
def sdamEnvPresent : SDAMEnv :=
  ⟨"/data/install", "posix", fun p => p == "/data/install/sdam_json_test"⟩

/-- An install directory in which the SDAM test binary is missing. -/
def sdamEnvMissing : SDAMEnv :=
  ⟨"/data/install", "posix", fun _ => false⟩

end SdamJsonTest

namespace CopybaraSync

/-- When the clone step is skipped or succeeds, the build succeeds, and
all three expansion keys are present, `main` reaches the migration step
with the gitconfig freshly overwritten. -/
lemma main_eq_migrate (env : Env) (app_id private_key installation_id : String)
    (hclone : env.copybara_exists = true ∨ ∃ o, env.runProc cloneCmd = ProcOutcome.success o)
    (hbuild : ∃ o, env.runProc buildCmd = ProcOutcome.success o)
    (ha : dictLookup env.expansions "app_id_copybara_syncer" = some app_id)
    (hp : dictLookup env.expansions "private_key_copybara_syncer" = some private_key)
    (hi : dictLookup env.expansions "installation_id_copybara_syncer" = some installation_id) :
    ∃ ex lg, main env =
      main_migrate env
        (get_installation_access_token env.exchange app_id private_key installation_id).1
        ex lg (some gitconfig_content) := by
  obtain ⟨bo, hb⟩ := hbuild
  have hcfg : ∀ ex lg, main_config env ex lg =
      main_migrate env
        (get_installation_access_token env.exchange app_id private_key installation_id).1
        ex (lg ++ (get_installation_access_token env.exchange app_id private_key installation_id).2
              ++ ["mongodb-bot.gitconfig file created."])
        (some gitconfig_content) := by
    intro ex lg
    simp only [main_config, ha, hp, hi, create_mongodb_bot_gitconfig]
  have hbld : ∀ ex lg, main_build env ex lg = main_config env (ex ++ [buildCmd]) (lg ++ []) := by
    intro ex lg
    simp only [main_build, run_command, hb]
  by_cases hex : env.copybara_exists
  · exact ⟨_, _, by rw [main, if_pos hex, hbld, hcfg]⟩
  · rcases hclone with hc | ⟨co, hc⟩
    · exact absurd hc hex
    · exact ⟨_, _, by
        rw [main, if_neg hex]
        simp only [run_command, hc]
        rw [hbld, hcfg]⟩
/-- When the migration command fails and its stderr matches an
acceptable message, `main_migrate` swallows the failure: no Slack
message, normal return. -/
lemma main_migrate_benign (env : Env) (tok : Option String) (ex lg : List String)
    (gc : Option String) (rc : Int) (serr : Option String)
    (hrun : env.runProc (migration_command env tok) = ProcOutcome.failure rc serr)
    (hpat : acceptable_error_messages.any (fun m => pyIn m (pyStr serr)) = true) :
    (main_migrate env tok ex lg gc).slack = [] ∧
    (main_migrate env tok ex lg gc).outcome = Except.ok () := by
  simp only [main_migrate, run_command, hrun, hpat, if_true]
  exact ⟨trivial, trivial⟩

/-- When the migration command fails and its stderr matches no
acceptable message, `main_migrate` sends exactly one Slack message,
returns normally, keeps the gitconfig as given, and its logs end with
the diagnostic line of `run_command`. -/
lemma main_migrate_genuine (env : Env) (tok : Option String) (ex lg : List String)
    (gc : Option String) (rc : Int) (serr : Option String)
    (hrun : env.runProc (migration_command env tok) = ProcOutcome.failure rc serr)
    (hpat : acceptable_error_messages.any (fun m => pyIn m (pyStr serr)) = false) :
    (main_migrate env tok ex lg gc).slack =
      [("#sdp-triager", send_failure_message_to_slack env.expansions)] ∧
    (main_migrate env tok ex lg gc).outcome = Except.ok () ∧
    (main_migrate env tok ex lg gc).gitconfig = gc ∧
    errorLogLine (migration_command env tok) ⟨migration_command env tok, rc, serr⟩ ∈
      (main_migrate env tok ex lg gc).logs := by
  simp only [main_migrate, run_command, hrun, hpat, if_false, Bool.false_eq_true]
  refine ⟨trivial, trivial, trivial, ?_⟩
  simp

/-- C1: for every captured stderr string of a failed migration
invocation containing one of the two acceptable substrings, the
orchestrator classifies the failure as a benign no-op: the Failure
Notifier is invoked zero times and `main` terminates normally. -/
theorem C1_benign_noop_swallowed (env : Env)
    (app_id private_key installation_id : String) (rc : Int) (s : String)
    (hclone : env.copybara_exists = true ∨ ∃ o, env.runProc cloneCmd = ProcOutcome.success o)
    (hbuild : ∃ o, env.runProc buildCmd = ProcOutcome.success o)
    (ha : dictLookup env.expansions "app_id_copybara_syncer" = some app_id)
    (hp : dictLookup env.expansions "private_key_copybara_syncer" = some private_key)
    (hi : dictLookup env.expansions "installation_id_copybara_syncer" = some installation_id)
    (hrun : env.runProc (migration_command env
        (get_installation_access_token env.exchange app_id private_key installation_id).1)
      = ProcOutcome.failure rc (some s))
    (hpat : pyIn "No new changes to import for resolved ref" s = true ∨
        pyIn "Iterative workflow produced no changes in the destination for resolved ref" s
          = true) :
    (main env).slack = [] ∧ (main env).outcome = Except.ok () := by
  obtain ⟨ex, lg, hm⟩ := main_eq_migrate env app_id private_key installation_id hclone hbuild ha hp hi
  rw [hm]
  refine main_migrate_benign env _ ex lg _ rc (some s) hrun ?_
  simp only [acceptable_error_messages, List.any, pyStr, Bool.or_eq_true]
  rcases hpat with h | h
  · exact Or.inl h
  · exact Or.inr (Or.inl h)

/-- A string is contained in any concatenation having it as the middle
part. -/
lemma pyIn_intro (m s a b : String) (h : s = a ++ m ++ b) : pyIn m s = true := by
  subst h
  simp only [pyIn, decide_eq_true_eq]
  refine ⟨a.data, b.data, ?_⟩
  simp

/-- Substring containment is transitive. -/
lemma pyIn_trans {a b c : String} (h1 : pyIn a b = true) (h2 : pyIn b c = true) :
    pyIn a c = true := by
  simp only [pyIn, decide_eq_true_eq] at h1 h2 ⊢
  exact h1.trans h2

set_option maxRecDepth 8192 in
/-- The migration command line splits around the interpolated token. -/
lemma migration_command_decomp (env : Env) (tok : Option String) :
    migration_command env tok =
      ("docker run -v ~/.ssh:/root/.ssh -v ~/mongodb-bot.gitconfig:/root/.gitconfig -v \""
          ++ env.current_dir
          ++ "/copybara.sky\":/usr/src/app/copy.bara.sky -e COPYBARA_CONFIG=\x27copy.bara.sky\x27 -e COPYBARA_SUBCOMMAND=\x27migrate\x27 -e COPYBARA_OPTIONS=\x27-v --last-rev=0fd0cc3 --git-destination-url=https://x-access-token:")
        ++ pyStr tok
        ++ "@github.com/mongodb/mongo.git\x27 copybara copybara" := by
  simp only [migration_command, docker_cmd, git_destination_url_with_token,
    String.intercalate, String.intercalate.go]
  apply String.ext
  simp [String.append_assoc]

/-- The token rendered into the URL is a substring of the migration
command line. -/
lemma token_infix_migration (env : Env) (tok : Option String) :
    pyIn (pyStr tok) (migration_command env tok) = true :=
  pyIn_intro _ _ _ _ (migration_command_decomp env tok)

/-- The failing command is a substring of the diagnostic line
`run_command` prints. -/
lemma cmd_infix_errorLogLine (c : String) (err : CalledProcessError) :
    pyIn c (errorLogLine c err) = true := by
  refine pyIn_intro c _ "Error while executing: \x27" ("\x27.\n" ++ strCalledProcessError err ++ "\nStandard Error: " ++ pyStr err.stderr) ?_
  simp only [errorLogLine]
  apply String.ext
  simp [String.append_assoc]

/-- Whatever the classification, a failed migration invocation leaves
the diagnostic line of `run_command` in the printed output and does not
touch the gitconfig again. -/
lemma main_migrate_failure_log (env : Env) (tok : Option String) (ex lg : List String)
    (gc : Option String) (rc : Int) (serr : Option String)
    (hrun : env.runProc (migration_command env tok) = ProcOutcome.failure rc serr) :
    errorLogLine (migration_command env tok) ⟨migration_command env tok, rc, serr⟩ ∈
      (main_migrate env tok ex lg gc).logs ∧
    (main_migrate env tok ex lg gc).gitconfig = gc := by
  simp only [main_migrate, run_command, hrun]
  by_cases h : acceptable_error_messages.any (fun m => pyIn m (pyStr serr)) <;>
    simp [h]

/-- C2 (amended): for every captured stderr of a failed (nonzero-exit)
migration invocation containing neither acceptable pattern, the
orchestrator classifies it as a genuine failure and invokes the Failure
Notifier exactly once — and then `main` terminates normally (the caught
failure is swallowed after the notification; there is no nonzero/abort
exit path). -/
theorem C2_genuine_failure_notifies_once (env : Env)
    (app_id private_key installation_id : String) (rc : Int) (serr : Option String)
    (hclone : env.copybara_exists = true ∨ ∃ o, env.runProc cloneCmd = ProcOutcome.success o)
    (hbuild : ∃ o, env.runProc buildCmd = ProcOutcome.success o)
    (ha : dictLookup env.expansions "app_id_copybara_syncer" = some app_id)
    (hp : dictLookup env.expansions "private_key_copybara_syncer" = some private_key)
    (hi : dictLookup env.expansions "installation_id_copybara_syncer" = some installation_id)
    (hrun : env.runProc (migration_command env
        (get_installation_access_token env.exchange app_id private_key installation_id).1)
      = ProcOutcome.failure rc serr)
    (hpat1 : pyIn "No new changes to import for resolved ref" (pyStr serr) = false)
    (hpat2 : pyIn "Iterative workflow produced no changes in the destination for resolved ref"
        (pyStr serr) = false) :
    (main env).slack = [("#sdp-triager", send_failure_message_to_slack env.expansions)] ∧
    (main env).outcome = Except.ok () := by
  obtain ⟨ex, lg, hm⟩ :=
    main_eq_migrate env app_id private_key installation_id hclone hbuild ha hp hi
  rw [hm]
  have h := main_migrate_genuine env _ ex lg (some gitconfig_content) rc serr hrun
    (by simp [acceptable_error_messages, hpat1, hpat2])
  exact ⟨h.1, h.2.1⟩

/-- C10: when the migration invocation fails with no captured stderr,
`str(err.stderr)` is the literal string "None", which matches no
acceptable pattern, so the failure is always classified as genuine and
the Failure Notifier is invoked. -/
theorem C10_absent_stderr_always_genuine (env : Env)
    (app_id private_key installation_id : String) (rc : Int)
    (hclone : env.copybara_exists = true ∨ ∃ o, env.runProc cloneCmd = ProcOutcome.success o)
    (hbuild : ∃ o, env.runProc buildCmd = ProcOutcome.success o)
    (ha : dictLookup env.expansions "app_id_copybara_syncer" = some app_id)
    (hp : dictLookup env.expansions "private_key_copybara_syncer" = some private_key)
    (hi : dictLookup env.expansions "installation_id_copybara_syncer" = some installation_id)
    (hrun : env.runProc (migration_command env
        (get_installation_access_token env.exchange app_id private_key installation_id).1)
      = ProcOutcome.failure rc none) :
    pyStr (none : Option String) = "None" ∧
    (acceptable_error_messages.all fun m => !pyIn m (pyStr (none : Option String))) = true ∧
    (main env).slack = [("#sdp-triager", send_failure_message_to_slack env.expansions)] ∧
    (main env).outcome = Except.ok () := by
  obtain ⟨ex, lg, hm⟩ :=
    main_eq_migrate env app_id private_key installation_id hclone hbuild ha hp hi
  rw [hm]
  have h := main_migrate_genuine env _ ex lg (some gitconfig_content) rc none hrun (by decide)
  exact ⟨rfl, by decide, h.1, h.2.1⟩

/-- C5 (amended): the token is used only to build the in-memory
authenticated URL and is never persisted to disk — the only file write
of a run is the fixed gitconfig content — but on the path where the
migration invocation fails, the diagnostic line printed by `run_command`
contains the full command line and with it the token. -/
theorem C5_token_unpersisted_but_logged_on_failure (env : Env)
    (app_id private_key installation_id : String) (rc : Int) (serr : Option String)
    (hclone : env.copybara_exists = true ∨ ∃ o, env.runProc cloneCmd = ProcOutcome.success o)
    (hbuild : ∃ o, env.runProc buildCmd = ProcOutcome.success o)
    (ha : dictLookup env.expansions "app_id_copybara_syncer" = some app_id)
    (hp : dictLookup env.expansions "private_key_copybara_syncer" = some private_key)
    (hi : dictLookup env.expansions "installation_id_copybara_syncer" = some installation_id)
    (hrun : env.runProc (migration_command env
        (get_installation_access_token env.exchange app_id private_key installation_id).1)
      = ProcOutcome.failure rc serr) :
    (main env).gitconfig = some gitconfig_content ∧
    ∃ l ∈ (main env).logs,
      pyIn (pyStr (get_installation_access_token
        env.exchange app_id private_key installation_id).1) l = true := by
  obtain ⟨ex, lg, hm⟩ :=
    main_eq_migrate env app_id private_key installation_id hclone hbuild ha hp hi
  rw [hm]
  obtain ⟨hlog, hgc⟩ := main_migrate_failure_log env _ ex lg _ rc serr hrun
  refine ⟨hgc, _, hlog, ?_⟩
  exact pyIn_trans (token_infix_migration env _) (cmd_infix_errorLogLine _ _)

/-- C4 (amended): when a required expansion key is absent the run aborts
with a `KeyError` before the token exchange, the gitconfig write and the
migration invocation, and no notification is sent — but the clone and
image-build commands have already been executed by the time the key is
looked up. -/
theorem C4_missing_key_aborts_before_migration (env : Env)
    (hclone : env.copybara_exists = true ∨ ∃ o, env.runProc cloneCmd = ProcOutcome.success o)
    (hbuild : ∃ o, env.runProc buildCmd = ProcOutcome.success o)
    (hmiss : dictLookup env.expansions "app_id_copybara_syncer" = none) :
    (main env).outcome = Except.error (PyError.keyError "app_id_copybara_syncer") ∧
    (main env).slack = [] ∧
    (main env).gitconfig = env.home_gitconfig ∧
    ∀ c ∈ (main env).executed, c = cloneCmd ∨ c = buildCmd := by
  obtain ⟨bo, hb⟩ := hbuild
  have hcfg : ∀ ex lg, main_config env ex lg =
      ⟨ex, lg, [], env.home_gitconfig,
       Except.error (PyError.keyError "app_id_copybara_syncer")⟩ := by
    intro ex lg
    simp only [main_config, hmiss]
  have hbld : ∀ ex lg, main_build env ex lg = main_config env (ex ++ [buildCmd]) (lg ++ []) := by
    intro ex lg
    simp only [main_build, run_command, hb]
  by_cases hex : env.copybara_exists
  · rw [main, if_pos hex, hbld, hcfg]
    refine ⟨rfl, rfl, rfl, ?_⟩
    intro c hc
    simp only [List.nil_append, List.mem_singleton] at hc
    exact Or.inr hc
  · rcases hclone with hc | ⟨co, hc⟩
    · exact absurd hc hex
    · rw [main, if_neg hex]
      simp only [run_command, hc]
      rw [hbld, hcfg]
      refine ⟨rfl, rfl, rfl, ?_⟩
      intro c hcm
      simp at hcm
      exact hcm

/-- C1 witness: scenario A — the benign iterative-workflow stderr is
swallowed, no Slack message, normal termination. -/
theorem C1_witness :
    pyIn "Iterative workflow produced no changes in the destination for resolved ref"
      "Iterative workflow produced no changes in the destination for resolved ref abc123"
      = true ∧
    (main envA).slack = [] ∧ (main envA).outcome = Except.ok () :=
  ⟨by decide,
   C1_benign_noop_swallowed envA "12345" "test-private-key" "67890" 1
     "Iterative workflow produced no changes in the destination for resolved ref abc123"
     (Or.inr ⟨"", rfl⟩) ⟨"", rfl⟩ rfl rfl rfl rfl (Or.inr (by decide))⟩

set_option maxRecDepth 100000 in
/-- C2 counterexample: scenario B — stderr "fatal: authentication
failed" produces exactly one notification carrying the version
identifier, but `main` then terminates normally (`Except.ok`), not via
any nonzero/abort exit path as the claim states. -/
theorem C2_counterexample :
    (main envB).slack = [("#sdp-triager", send_failure_message_to_slack testExpansions)] ∧
    pyIn "version123" (send_failure_message_to_slack testExpansions) = true ∧
    (main envB).outcome = Except.ok () :=
  ⟨by decide, by decide, rfl⟩

/-- C2 witness (amended): scenario B through the amended theorem. -/
theorem C2_witness :
    pyIn "No new changes to import for resolved ref"
      (pyStr (some "fatal: authentication failed")) = false ∧
    (main envB).slack = [("#sdp-triager", send_failure_message_to_slack envB.expansions)] ∧
    (main envB).outcome = Except.ok () :=
  ⟨by decide,
   C2_genuine_failure_notifies_once envB "12345" "test-private-key" "67890" 1
     (some "fatal: authentication failed")
     (Or.inr ⟨"", rfl⟩) ⟨"", rfl⟩ rfl rfl rfl rfl (by decide) (by decide)⟩

set_option maxRecDepth 100000 in
/-- C3: contrary to the claim, when the credential exchange yields no
usable token the run does not abort: `main` interpolates the `None`
value into the destination URL, builds the docker command line with
"x-access-token:None@" embedded, executes it, and terminates
normally. -/
theorem C3_none_token_still_executes :
    (main envC3run).executed = [cloneCmd, buildCmd, migration_command envC3run none] ∧
    pyIn "x-access-token:None@" (migration_command envC3run none) = true ∧
    (main envC3run).outcome = Except.ok () :=
  ⟨by decide, by decide, rfl⟩

set_option maxRecDepth 100000 in
/-- C4 counterexample: scenario C — with `app_id_copybara_syncer`
missing, the run does abort with a `KeyError` and sends no
notification, but the clone and image-build commands have already been
executed, contradicting "aborts before any external command is
executed". -/
theorem C4_counterexample :
    (main envC4run).executed = [cloneCmd, buildCmd] ∧
    (main envC4run).outcome = Except.error (PyError.keyError "app_id_copybara_syncer") ∧
    (main envC4run).slack = [] :=
  ⟨by decide, rfl, by decide⟩

/-- C4 witness (amended): scenario C through the amended theorem. -/
theorem C4_witness :
    dictLookup envC4run.expansions "app_id_copybara_syncer" = none ∧
    (main envC4run).outcome = Except.error (PyError.keyError "app_id_copybara_syncer") ∧
    (main envC4run).slack = [] ∧
    (main envC4run).gitconfig = envC4run.home_gitconfig :=
  ⟨rfl,
   (C4_missing_key_aborts_before_migration envC4run (Or.inr ⟨"", rfl⟩) ⟨"", rfl⟩ rfl).1,
   (C4_missing_key_aborts_before_migration envC4run (Or.inr ⟨"", rfl⟩) ⟨"", rfl⟩ rfl).2.1,
   (C4_missing_key_aborts_before_migration envC4run (Or.inr ⟨"", rfl⟩) ⟨"", rfl⟩ rfl).2.2.1⟩

set_option maxRecDepth 100000 in
/-- C5 counterexample: in a run whose token is "tok-SECRET-123" and
whose migration invocation fails, the token appears verbatim in a
printed log line, contradicting "never written to any log output". -/
theorem C5_counterexample :
    (main envC5run).logs.any (fun l => pyIn "tok-SECRET-123" l) = true := by
  decide

/-- C5 witness (amended): the run with token "tok-SECRET-123" through
the amended theorem. -/
theorem C5_witness :
    (get_installation_access_token envC5run.exchange "12345" "test-private-key" "67890").1
      = some "tok-SECRET-123" ∧
    ((main envC5run).gitconfig = some gitconfig_content ∧
     ∃ l ∈ (main envC5run).logs,
       pyIn (pyStr (get_installation_access_token envC5run.exchange
         "12345" "test-private-key" "67890").1) l = true) :=
  ⟨rfl,
   C5_token_unpersisted_but_logged_on_failure envC5run "12345" "test-private-key" "67890"
     1 (some "migration crashed")
     (Or.inr ⟨"", rfl⟩) ⟨"", rfl⟩ rfl rfl rfl rfl⟩

/-- C10 witness: a run whose migration fails with stderr `None` sends
exactly one Slack message and returns normally. -/
theorem C10_witness :
    (acceptable_error_messages.all fun m => !pyIn m (pyStr (none : Option String))) = true ∧
    (main envC10run).slack =
      [("#sdp-triager", send_failure_message_to_slack envC10run.expansions)] ∧
    (main envC10run).outcome = Except.ok () :=
  ⟨by decide,
   (C10_absent_stderr_always_genuine envC10run "12345" "test-private-key" "67890" 2
     (Or.inr ⟨"", rfl⟩) ⟨"", rfl⟩ rfl rfl rfl rfl).2.2.1,
   (C10_absent_stderr_always_genuine envC10run "12345" "test-private-key" "67890" 2
     (Or.inr ⟨"", rfl⟩) ⟨"", rfl⟩ rfl rfl rfl rfl).2.2.2⟩

/-- C6: for every falsy/absent token response the Credential Provider
returns the explicit absence value `none`, distinguishable from every
`some`-token (in particular it is not `some ""`); on a truthy response
it returns the token string of the response. -/
theorem C6_absent_token_is_none
    (exchange : String → String → String → Option InstallationAuthorization)
    (app_id private_key installation_id : String) :
    (exchange app_id private_key installation_id = none →
      (get_installation_access_token exchange app_id private_key installation_id).1 = none ∧
      ∀ s : String,
        (get_installation_access_token exchange app_id private_key installation_id).1
          ≠ some s) ∧
    (∀ auth, exchange app_id private_key installation_id = some auth →
      (get_installation_access_token exchange app_id private_key installation_id).1
        = some auth.token) := by
  constructor
  · intro h
    simp [get_installation_access_token, h]
  · intro auth h
    simp [get_installation_access_token, h]

/-- C6 witness: the always-failing exchange yields `none`. -/
theorem C6_witness :
    exchangeNone "a" "pk" "i" = none ∧
    (get_installation_access_token exchangeNone "a" "pk" "i").1 = none :=
  ⟨rfl, ((C6_absent_token_is_none exchangeNone "a" "pk" "i").1 rfl).1⟩

/-- C7: the Environment Preparer is an idempotent pure overwrite — the
final file content equals the fixed bot identity content whatever the
prior content was, and a second invocation changes nothing. -/
theorem C7_gitconfig_idempotent_overwrite (prev₁ prev₂ : Option String) :
    create_mongodb_bot_gitconfig prev₁ = gitconfig_content ∧
    create_mongodb_bot_gitconfig (some (create_mongodb_bot_gitconfig prev₂))
      = create_mongodb_bot_gitconfig prev₁ := by
  exact ⟨rfl, rfl⟩

/-- C8: a zero-exit command returns the captured stdout unchanged; a
nonzero-exit command yields the single structured failure kind
(`CalledProcessError`) carrying the exit code and the exact captured
stderr, after printing one diagnostic line that contains the failing
command. -/
theorem C8_run_command_contract (runProc : String → ProcOutcome) (command : String) :
    (∀ out, runProc command = ProcOutcome.success out →
      run_command runProc command = (Except.ok out, [])) ∧
    (∀ rc serr, runProc command = ProcOutcome.failure rc serr →
      run_command runProc command =
        (Except.error ⟨command, rc, serr⟩,
         [errorLogLine command ⟨command, rc, serr⟩]) ∧
      pyIn command (errorLogLine command ⟨command, rc, serr⟩) = true) := by
  constructor
  · intro out h
    simp [run_command, h]
  · intro rc serr h
    exact ⟨by simp [run_command, h], cmd_infix_errorLogLine command ⟨command, rc, serr⟩⟩

/-- C8 witness: a succeeding and a failing command through the
contract. -/
theorem C8_witness :
    okProc "echo hi" = ProcOutcome.success "out" ∧
    run_command okProc "echo hi" = (Except.ok "out", []) ∧
    failProc "bad-cmd" = ProcOutcome.failure 1 (some "boom") ∧
    pyIn "bad-cmd" (errorLogLine "bad-cmd" ⟨"bad-cmd", 1, some "boom"⟩) = true :=
  ⟨rfl,
   (C8_run_command_contract okProc "echo hi").1 "out" rfl,
   rfl,
   ((C8_run_command_contract failProc "bad-cmd").2 1 (some "boom") rfl).2⟩

end CopybaraSync

namespace SdamJsonTest

/-- C9: the adapter fails fast with the distinguishable `StopExecution`
setup error when the platform-specific executable is missing from the
install directory, and otherwise constructs exactly the command line
`<executable> --source-dir <TEST_DIR> -f <fixture-path>` (the fixture
path as stored by the adapter, i.e. normalized). -/
theorem C9_adapter_contract (env : SDAMEnv) (json_test_file : String)
    (program_options : Option (List (String × String))) :
    (env.isfile (sdam_binary_path env) = false →
      SDAMJsonTestCase.init env json_test_file program_options =
        Except.error (ResmokeError.stopExecution
          ("Failed to locate sdam_json_test binary at " ++ sdam_binary_path env))) ∧
    (env.isfile (sdam_binary_path env) = true →
      ∃ t, SDAMJsonTestCase.init env json_test_file program_options = Except.ok t ∧
        make_process t =
          [sdam_binary_path env, "--source-dir", TEST_DIR, "-f",
           os_path_normpath json_test_file]) := by
  constructor
  · intro h
    simp [SDAMJsonTestCase.init, find_executable, h]
  · intro h
    refine ⟨⟨sdam_binary_path env, os_path_normpath json_test_file,
      program_options.getD []⟩, ?_, rfl⟩
    simp [SDAMJsonTestCase.init, find_executable, h]

/-- C9 witness: with the binary absent the adapter stops with the setup
error naming the probed path. -/
theorem C9_witness :
    sdamEnvMissing.isfile (sdam_binary_path sdamEnvMissing) = false ∧
    SDAMJsonTestCase.init sdamEnvMissing "sdam/discover.json" none =
      Except.error (ResmokeError.stopExecution
        ("Failed to locate sdam_json_test binary at " ++ sdam_binary_path sdamEnvMissing)) :=
  ⟨rfl, (C9_adapter_contract sdamEnvMissing "sdam/discover.json" none).1 rfl⟩

end SdamJsonTest
